import Mathlib

/-!
# Verification of `src/modules/napajs/node/zone-wrap.cpp`

Shallow embedding of the napajs node binding `zone-wrap.cpp` (the "execution
bridge"): request building (`CreateRequestAndExecute`), response decoding
(`CreateResponseObject`), zone construction (`ZoneWrap::NewCallback`),
broadcast (`ZoneWrap::Broadcast` / `BroadcastSync`) and the cross-thread
completion handoff (`NodeAsyncHandler`, modelled from the spec since its
header is not part of the sources under review).

JavaScript values reaching the bridge are modelled by `Napajs.JsValue`; a
plain JS object is a sequence of key/value pairs in property order.  V8
semantics used by the code are embedded explicitly:
* `v8::Object::Get(context, key)` on a plain data object never returns an
  empty `MaybeLocal` — an absent key reads as `undefined`; an empty
  `MaybeLocal` only signals a pending exception (getters, interceptors),
  which plain input objects cannot produce.
* `v8::String::Utf8Value` / `Utf8String` apply JavaScript `ToString`
  (`undefined` stringifies to "undefined").
* `Uint32Value` applies JavaScript `ToUint32` (`undefined`/`null` give 0).
-/

namespace Napajs

mutual

/-- A JavaScript value as seen by the binding.  Numbers are modelled as
naturals: the bridge itself only ever constructs `v8::Uint32` values, and no
claim depends on fractional or negative numbers. -/
inductive JsValue where
  | undefined
  | null
  | boolean (b : Bool)
  | num (n : Nat)
  | str (s : String)
  | arr (elems : JsArray)
  | obj (fields : JsObject)

/-- The elements of a JS array, in order. -/
inductive JsArray where
  | nil
  | cons (head : JsValue) (tail : JsArray)

/-- A plain JS object: key/value pairs in property order. -/
inductive JsObject where
  | nil
  | cons (key : String) (val : JsValue) (tail : JsObject)

end

mutual

/-- JavaScript `ToString`, as applied by `v8::String::Utf8Value` and
`napa::v8_helpers::Utf8String`: `undefined` gives "undefined", arrays join
their stringified elements with ",", plain objects give "[object Object]". -/
def jsToString : JsValue → String
  | JsValue.undefined => "undefined"
  | JsValue.null => "null"
  | JsValue.boolean b => cond b "true" "false"
  | JsValue.num n => toString n
  | JsValue.str s => s
  | JsValue.arr elems => String.intercalate "," (jsArrayToStrings elems)
  | JsValue.obj _ => "[object Object]"

/-- Stringify each element of a JS array, preserving order (this is what
`V8ArrayToVector<Utf8String>` produces element-wise). -/
def jsArrayToStrings : JsArray → List String
  | JsArray.nil => []
  | JsArray.cons v vs => jsToString v :: jsArrayToStrings vs

end

/-- JavaScript `ToUint32`, as applied by `Value::Uint32Value`, for the shapes
the bridge receives: `undefined`/`null` (and anything whose numeric
conversion is NaN) give 0. -/
def jsToUint32 : JsValue → Nat
  | JsValue.num n => n % 4294967296
  | JsValue.boolean b => cond b 1 0
  | JsValue.str s => (s.toNat?.getD 0) % 4294967296
  | _ => 0

/-- `v8::Value::IsString`. -/
def isString : JsValue → Bool
  | JsValue.str _ => true
  | _ => false

/-- Reading property `key` of a plain JS object (`v8::Object::Get`): the
value stored under the key, or `undefined` when the key is absent.  On plain
data objects this never yields an empty `MaybeLocal`. -/
def jsGet : JsObject → String → JsValue
  | JsObject.nil, _ => JsValue.undefined
  | JsObject.cons k v rest, key => if k = key then v else jsGet rest key

/-- `args[i]` of a `v8::FunctionCallbackInfo`: arguments beyond the passed
count read as `undefined`. -/
def jsArg (args : List JsValue) (i : Nat) : JsValue :=
  args.getD i JsValue.undefined

/-- Length of a JS object viewed as its property list (used only for
building concrete test objects). -/
def jsObjectFields : JsObject → List (String × JsValue)
  | JsObject.nil => []
  | JsObject.cons k v rest => (k, v) :: jsObjectFields rest

/-- `napa::ExecuteRequest` as described by the spec data model (the C++
struct lives in the napa core headers, outside the reviewed sources):
`module` defaults to empty, `arguments` to the empty sequence, `timeout` to
absent. -/
structure ExecuteRequest where
  module : String := ""
  function : String := ""
  arguments : List String := []
  timeout : Option Nat := none
deriving DecidableEq, Repr

/-- Outcome of `CreateRequestAndExecute`'s request-building phase.
`err` is a `CHECK_ARG` failure (a thrown JS `TypeError`, surfaced
synchronously; the spec calls it `ValidationError`).  `ub` marks the point
where the C++ casts a non-array value to `v8::Array` and iterates it
(`v8::Local::Cast` is unchecked in release builds, so reading the length of
a non-array is undefined behavior); it carries the request fields already
populated when that point is reached. -/
inductive BuildResult where
  | ok (r : ExecuteRequest)
  | err (msg : String)
  | ub (site : String) (partialRequest : ExecuteRequest)
deriving DecidableEq, Repr

/-- Embedding of `CreateRequestAndExecute` (zone-wrap.cpp lines 210-254),
request-building phase.  Property reads follow the V8 semantics above: a
read on a plain object never yields an empty `MaybeLocal`, so every
`if (!maybe.IsEmpty())` branch is taken and the first `CHECK_ARG` on the
`function` property (message "function property is missing in execution
request object") cannot fire; an absent key reads as `undefined`. -/
def CreateRequestAndExecute (obj : JsObject) : BuildResult :=
  -- lines 217-223: module is read unconditionally and stringified
  let req0 : ExecuteRequest := { module := jsToString (jsGet obj "module") }
  -- lines 225-231: function must be a string
  match jsGet obj "function" with
  | JsValue.str f =>
    let req1 := { req0 with function := f }
    -- lines 233-242: the value under "arguments" is cast to v8::Array
    match jsGet obj "arguments" with
    | JsValue.arr elems =>
      let req2 := { req1 with arguments := jsArrayToStrings elems }
      -- lines 244-248: timeout is read unconditionally and converted
      BuildResult.ok { req2 with timeout := some (jsToUint32 (jsGet obj "timeout")) }
    | _ => BuildResult.ub "arguments" req1
  | _ => BuildResult.err "function property in execution request object must be a string"

/-- `napa::ExecuteResponse` raw fields (`code` is a uint32). -/
structure ExecuteResponse where
  code : Nat
  errorMessage : String
  returnValue : String
deriving DecidableEq, Repr

/-- A value stored in the JS response object built by
`CreateResponseObject`: a uint32, a string, or a value produced by the JSON
parser (of parametric type `J`, since `v8::JSON::Parse` is V8's parser, not
code of this repository). -/
inductive ResponseProp (J : Type) where
  | num (n : Nat)
  | str (s : String)
  | json (v : J)
deriving DecidableEq, Repr

/-- The `returnValue` property of the response object (zone-wrap.cpp lines
189-198): empty raw string stays the empty string with no parse attempt;
otherwise `v8::JSON::Parse` is tried inside a `TryCatch` and `FromMaybe`
falls back to the raw string on failure.  The parser is passed in as a total
function `String → Option J` — `none` models a parse that threw (caught by
the `TryCatch`, never propagated). -/
def responseReturnValue {J : Type} (parse : String → Option J)
    (response : ExecuteResponse) : ResponseProp J :=
  if response.returnValue = "" then ResponseProp.str ""
  else
    match parse response.returnValue with
    | some v => ResponseProp.json v
    | none => ResponseProp.str response.returnValue

/-- Instrumented variant of `responseReturnValue` that also counts how many
times the JSON parser is invoked; same branch structure as the source. -/
def responseReturnValueCounting {J : Type} (parse : String → Option J)
    (response : ExecuteResponse) : ResponseProp J × Nat :=
  if response.returnValue = "" then (ResponseProp.str "", 0)
  else
    match parse response.returnValue with
    | some v => (ResponseProp.json v, 1)
    | none => (ResponseProp.str response.returnValue, 1)

/-- Embedding of `CreateResponseObject` (zone-wrap.cpp lines 173-208): the
JS object is the ordered list of data properties created on it.  The
transport context is not attached (the source marks it TODO). -/
def CreateResponseObject {J : Type} (parse : String → Option J)
    (response : ExecuteResponse) : List (String × ResponseProp J) :=
  [("code", ResponseProp.num response.code),
   ("errorMessage", ResponseProp.str response.errorMessage),
   ("returnValue", responseReturnValue parse response)]

/-- Property lookup on the embedded JS response object. -/
def propLookup {α : Type} (props : List (String × α)) (key : String) : Option α :=
  (props.find? (fun kv => kv.1 = key)).map (fun kv => kv.2)

/-- Embedding of `ZoneWrap::ExecuteSync` (zone-wrap.cpp lines 158-171)
against an arbitrary scheduler stub `sched` (`ZoneProxy::ExecuteSync` is the
external napa core).  Returns the outcome together with the number of times
the scheduler was invoked; the continuation `func(request)` at line 253 runs
only when every extraction step before it succeeded. -/
def ExecuteSync {J : Type} (sched : ExecuteRequest → ExecuteResponse)
    (parse : String → Option J) (obj : JsObject) :
    Except String (List (String × ResponseProp J)) × Nat :=
  match CreateRequestAndExecute obj with
  | BuildResult.ok r => (Except.ok (CreateResponseObject parse (sched r)), 1)
  | BuildResult.err msg => (Except.error msg, 0)
  | BuildResult.ub site _ => (Except.error ("undefined behavior at " ++ site), 0)

/-- Modelled from the spec: `napa::v8_helpers::V8ObjectToMap<std::string>`
lives in the napa helper headers, outside the reviewed sources.  Per the
spec it yields the settings object's key/value pairs with values rendered as
strings, the order of pairs from the input preserved and duplicates kept. -/
def v8ObjectToMap : JsObject → List (String × String)
  | JsObject.nil => []
  | JsObject.cons k v rest => (k, jsToString v) :: v8ObjectToMap rest

/-- The stringstream loop of `ZoneWrap::NewCallback` (zone-wrap.cpp lines
77-79): append one " --key value" token per settings pair. -/
def flattenSettings (settings : List (String × String)) : String :=
  settings.foldl (fun acc kv => acc ++ " --" ++ kv.1 ++ " " ++ kv.2) ""

/-- The constructor discriminator prepended by `ZoneWrap::NewInstance`.
Modelled from the spec: the enum's numeric values live in zone-wrap.h,
outside the reviewed sources, so the discriminator is carried abstractly
("exactly one of these two paths is chosen by an explicit discriminator at
construction time"). -/
inductive ConstructorType where
  | CREATE
  | GET
deriving DecidableEq, Repr

/-- The external `napa::ZoneProxy` handle the constructor binds: either a
newly created zone (id plus flattened config string) or one fetched from the
global registry by id. -/
inductive ZoneProxyRef where
  | created (id : String) (config : String)
  | got (id : String)
deriving DecidableEq, Repr

/-- Embedding of `ZoneWrap::NewCallback` (zone-wrap.cpp lines 58-94).
`JS_ASSERT` and `CHECK_ARG` throw a JS error and return, so they are
modelled as short-circuiting `Except.error`; on success the built
`ZoneProxyRef` is wrapped and bound to the new object. -/
def NewCallback (isConstructCall : Bool) (ctype : ConstructorType)
    (args : List JsValue) : Except String ZoneProxyRef :=
  if isConstructCall = false then Except.error "Only constructor call is allowed"
  else
    match ctype with
    | ConstructorType.CREATE =>
      match jsArg args 1 with
      | JsValue.str zoneId =>
        if 2 < args.length then
          match jsArg args 2 with
          | JsValue.obj settingsObj =>
            Except.ok (ZoneProxyRef.created zoneId
              (flattenSettings (v8ObjectToMap settingsObj)))
          | _ => Except.error "second argument to createZone must be an object"
        else Except.ok (ZoneProxyRef.created zoneId "")
      | _ => Except.error "first argument to createZone must be a string"
    | ConstructorType.GET =>
      match jsArg args 1 with
      | JsValue.str zoneId => Except.ok (ZoneProxyRef.got zoneId)
      | _ => Except.error "first argument to getZone must be a string"

/-- The conversion function `ZoneWrap::Broadcast` registers with its async
handler (zone-wrap.cpp lines 108-112): one `v8::Uint32` argument holding the
response code. -/
def broadcastConvert (responseCode : Nat) : List JsValue :=
  [JsValue.num responseCode]

/-- The conversion function `ZoneWrap::Execute` registers with its async
handler (zone-wrap.cpp lines 143-147): one argument, the decoded response
object. -/
def executeConvert {J : Type} (parse : String → Option J)
    (response : ExecuteResponse) : List (List (String × ResponseProp J)) :=
  [CreateResponseObject parse response]

/-- Embedding of `ZoneWrap::BroadcastSync` (zone-wrap.cpp lines 121-132)
against a scheduler stub `sched` for `ZoneProxy::BroadcastSync`: the uint32
response code is returned to JS unmodified. -/
def BroadcastSync (sched : String → Nat) (args : List JsValue) :
    Except String JsValue :=
  match jsArg args 0 with
  | JsValue.str source => Except.ok (JsValue.num (sched source))
  | _ => Except.error "first argument to zone.broadcastSync must be the javascript source"

/-- Modelled from the spec: `NodeAsyncHandler` (node-async-handler.h, not
among the reviewed sources) is the spec's `CompletionBridge`.  The embedding
thread's pending work is `queue`: argument lists posted (via the runtime's
"post a task to my thread" primitive) but not yet run; `invocations` records
the callback invocations the embedding thread has executed, in order. -/
structure BridgeState (A : Type) where
  queue : List (List A)
  invocations : List (List A)
deriving Repr

/-- `CompletionBridge.register`: a fresh handle with nothing posted and the
callback never yet invoked. -/
def bridgeRegister (A : Type) : BridgeState A :=
  { queue := [], invocations := [] }

/-- `handle.dispatch(value)`, callable from any worker thread: converts the
raw value and posts the single invocation to the embedding thread's task
queue — it never runs the callback inline. -/
def bridgeDispatch {T A : Type} (convert : T → List A) (value : T)
    (s : BridgeState A) : BridgeState A :=
  { s with queue := s.queue ++ [convert value] }

/-- The embedding thread draining its task queue: every posted invocation
runs, in post order, on that thread. -/
def bridgeDrain {A : Type} (s : BridgeState A) : BridgeState A :=
  { queue := [], invocations := s.invocations ++ s.queue }

/-- The spec's reading of the zone configuration string: the concatenation,
in input order, of one " --key value" token per settings pair (refinement
reference for `flattenSettings`, which embeds the stringstream loop). -/
def specFlattenSettings : List (String × String) → String
  | [] => ""
  | kv :: rest => " --" ++ kv.1 ++ " " ++ kv.2 ++ specFlattenSettings rest

lemma flattenSettings_go (settings : List (String × String)) :
    ∀ acc : String,
      List.foldl (fun acc kv => acc ++ " --" ++ kv.1 ++ " " ++ kv.2) acc settings
        = acc ++ specFlattenSettings settings := by
  induction settings with
  | nil => intro acc; simp [specFlattenSettings, String.append_empty]
  | cons kv rest ih =>
    intro acc
    rw [List.foldl_cons, ih, specFlattenSettings]
    simp [String.append_assoc]

lemma flattenSettings_eq_spec (settings : List (String × String)) :
    flattenSettings settings = specFlattenSettings settings := by
  have h := flattenSettings_go settings ""
  simpa [flattenSettings, String.empty_append] using h

lemma lookup_code (J : Type) (parse : String → Option J)
    (response : ExecuteResponse) :
    propLookup (CreateResponseObject parse response) "code"
      = some (ResponseProp.num response.code) := rfl

lemma lookup_errorMessage (J : Type) (parse : String → Option J)
    (response : ExecuteResponse) :
    propLookup (CreateResponseObject parse response) "errorMessage"
      = some (ResponseProp.str response.errorMessage) := rfl

lemma lookup_returnValue (J : Type) (parse : String → Option J)
    (response : ExecuteResponse) :
    propLookup (CreateResponseObject parse response) "returnValue"
      = some (responseReturnValue parse response) := rfl

/-- C1: for every async execute or broadcast call, when the scheduler's
completion closure is invoked (from any worker thread) with a raw value,
`dispatch` only posts the invocation to the embedding thread's task queue
(it never runs the callback inline on the worker thread), and once the
embedding thread drains its queue the registered callback has run exactly
once with arguments equal to the conversion function applied to that value
— also when dispatch happened before the queue was drained; instantiated
with the actual conversion functions registered by `ZoneWrap::Execute` and
`ZoneWrap::Broadcast`. -/
theorem completion_bridge_delivers_exactly_once :
    (∀ (T A : Type) (convert : T → List A) (value : T) (s : BridgeState A),
      (bridgeDispatch convert value s).invocations = s.invocations) ∧
    (∀ (T A : Type) (convert : T → List A) (value : T),
      (bridgeDrain (bridgeDispatch convert value (bridgeRegister A))).invocations
        = [convert value]) ∧
    (∀ (J : Type) (parse : String → Option J) (response : ExecuteResponse),
      (bridgeDrain (bridgeDispatch (executeConvert parse) response
        (bridgeRegister (List (String × ResponseProp J))))).invocations
        = [[CreateResponseObject parse response]]) ∧
    (∀ code : Nat,
      (bridgeDrain (bridgeDispatch broadcastConvert code
        (bridgeRegister JsValue))).invocations = [[JsValue.num code]]) := by
  refine ⟨?_, ?_, ?_, ?_⟩ <;> intros <;>
    simp [bridgeDispatch, bridgeDrain, bridgeRegister, executeConvert, broadcastConvert]

/-- C5: the configuration string handed to the scheduler is the
concatenation of one " --key value" token per settings pair, input order
preserved and duplicate keys kept; in particular a settings object with the
single pair workers/4 yields exactly " --workers 4" through the full
`ZoneWrap::NewCallback` CREATE path. -/
theorem zone_config_is_flattened_settings :
    (∀ settings : List (String × String),
      flattenSettings settings = specFlattenSettings settings) ∧
    flattenSettings [("workers", "4")] = " --workers 4" ∧
    flattenSettings [("a", "1"), ("a", "2")] = " --a 1 --a 2" ∧
    NewCallback true ConstructorType.CREATE
      [JsValue.num 0, JsValue.str "z1",
       JsValue.obj (JsObject.cons "workers" (JsValue.str "4") JsObject.nil)]
      = Except.ok (ZoneProxyRef.created "z1" " --workers 4") := by
  exact ⟨flattenSettings_eq_spec, rfl, rfl, rfl⟩

/-- C6: the code contradicts the claim (and its own comments declaring
`module`, `arguments` and `timeout` optional).  On the input having only a
string `function` property, reading the absent `module` key yields
`undefined` (a property read on a plain object never produces an empty
`MaybeLocal`), so the request's `module` is set to the string "undefined"
rather than left empty, and the absent `arguments` key's `undefined` value
is cast to `v8::Array` and iterated — undefined behavior — before `timeout`
(which would become 0, not absent) is even reached. -/
theorem missing_optional_keys_corrupt_request :
    CreateRequestAndExecute (JsObject.cons "function" (JsValue.str "foo") JsObject.nil)
      = BuildResult.ub "arguments" { module := "undefined", function := "foo" } ∧
    ({ module := "undefined", function := "foo" } : ExecuteRequest).module ≠ "" := by
  exact ⟨rfl, by decide⟩

/-- C7: decoding passes `code` and `errorMessage` through verbatim into the
decoded response object, for every raw response and every behavior of the
JSON parser used for the return-value view. -/
theorem code_and_error_message_pass_through :
    ∀ (J : Type) (parse : String → Option J) (response : ExecuteResponse),
      propLookup (CreateResponseObject parse response) "code"
        = some (ResponseProp.num response.code) ∧
      propLookup (CreateResponseObject parse response) "errorMessage"
        = some (ResponseProp.str response.errorMessage) := by
  intro J parse response
  exact ⟨lookup_code J parse response, lookup_errorMessage J parse response⟩

/-- C8: calling the `ZoneWrap` constructor other than as a construct call
fails with the assertion "Only constructor call is allowed", whatever the
discriminator and arguments, and no zone object is created or bound (the
call never produces an `ok` result). -/
theorem non_construct_call_rejected :
    ∀ (ctype : ConstructorType) (args : List JsValue),
      NewCallback false ctype args = Except.error "Only constructor call is allowed" ∧
      ∀ ref : ZoneProxyRef, NewCallback false ctype args ≠ Except.ok ref := by
  intro ctype args
  refine ⟨rfl, ?_⟩
  intro ref h
  simp [NewCallback] at h

/-- C9: the decoded execute response object carries exactly the three data
properties `code`, `errorMessage` and `returnValue`, in that order; nothing
else (in particular no transport context) is ever attached. -/
theorem response_object_has_exactly_three_properties :
    ∀ (J : Type) (parse : String → Option J) (response : ExecuteResponse),
      (CreateResponseObject parse response).map Prod.fst
        = ["code", "errorMessage", "returnValue"] := by
  intro J parse response
  rfl

/-- C10: the async broadcast completion converts the scheduler's response
code into exactly one callback argument, the code as an unsigned integer;
and `BroadcastSync` returns that same unsigned-integer code directly,
undecoded and unmodified. -/
theorem broadcast_code_single_uint32_argument :
    (∀ code : Nat,
      broadcastConvert code = [JsValue.num code] ∧
      (broadcastConvert code).length = 1) ∧
    (∀ (sched : String → Nat) (source : String) (rest : List JsValue),
      BroadcastSync sched (JsValue.str source :: rest)
        = Except.ok (JsValue.num (sched source))) := by
  exact ⟨fun code => ⟨rfl, rfl⟩, fun sched source rest => rfl⟩

/-- C2, counterexample: the claim's error message does not match the code.
On the empty input object the build fails, but with the message "function
property in execution request object must be a string", which differs from
the claimed "function property is missing or not a string". -/
theorem function_error_message_counterexample :
    CreateRequestAndExecute JsObject.nil
      = BuildResult.err "function property in execution request object must be a string" ∧
    "function property in execution request object must be a string"
      ≠ "function property is missing or not a string" := by
  exact ⟨rfl, by decide⟩

/-- C2, amended: for every input object whose `function` property is absent
or not a string (an absent key reads as `undefined`, hence non-string),
request building fails synchronously with the validation error "function
property in execution request object must be a string" — not with the
message the claim states — and the external scheduler's execute entry point
is never invoked (zero scheduler calls, for every scheduler stub and
parser). -/
theorem nonstring_function_fails_without_scheduler_call
    (obj : JsObject) (h : isString (jsGet obj "function") = false) :
    CreateRequestAndExecute obj
      = BuildResult.err "function property in execution request object must be a string" ∧
    ∀ (J : Type) (sched : ExecuteRequest → ExecuteResponse) (parse : String → Option J),
      ExecuteSync sched parse obj
        = (Except.error "function property in execution request object must be a string", 0) := by
  have hbuild : CreateRequestAndExecute obj
      = BuildResult.err "function property in execution request object must be a string" := by
    cases hv : jsGet obj "function"
    case str s => rw [hv] at h; simp [isString] at h
    all_goals (unfold CreateRequestAndExecute; rw [hv])
  refine ⟨hbuild, ?_⟩
  intro J sched parse
  simp [ExecuteSync, hbuild]

/-- C2, witness: the amended theorem applied to the empty input object. -/
theorem nonstring_function_fails_witness :
    isString (jsGet JsObject.nil "function") = false ∧
    CreateRequestAndExecute JsObject.nil
      = BuildResult.err "function property in execution request object must be a string" ∧
    ExecuteSync (fun _ => { code := 0, errorMessage := "", returnValue := "" })
        (fun s => if s = "42" then some 42 else none) JsObject.nil
      = (Except.error "function property in execution request object must be a string", 0) := by
  refine ⟨by decide, ?_, ?_⟩
  · exact (nonstring_function_fails_without_scheduler_call JsObject.nil (by decide)).1
  · exact (nonstring_function_fails_without_scheduler_call JsObject.nil (by decide)).2
      Nat (fun _ => { code := 0, errorMessage := "", returnValue := "" })
      (fun s => if s = "42" then some 42 else none)

/-- C3: for every raw response with a non-empty `returnValue`, if the JSON
parser yields a value `V` the decoded object's `returnValue` view is `V`,
and if the parse fails (the parser, run inside a `TryCatch`, yields
nothing) the view is the raw string unchanged; `responseReturnValue` is a
total function, so decoding never raises or propagates the parse error. -/
theorem return_value_parsed_or_raw_fallback
    (J : Type) (parse : String → Option J) (response : ExecuteResponse)
    (h : response.returnValue ≠ "") :
    (∀ v : J, parse response.returnValue = some v →
      propLookup (CreateResponseObject parse response) "returnValue"
        = some (ResponseProp.json v)) ∧
    (parse response.returnValue = none →
      propLookup (CreateResponseObject parse response) "returnValue"
        = some (ResponseProp.str response.returnValue)) := by
  constructor
  · intro v hv
    rw [lookup_returnValue]
    simp [responseReturnValue, h, hv]
  · intro hn
    rw [lookup_returnValue]
    simp [responseReturnValue, h, hn]

/-- C3, witness: with a parser recognising exactly "42" (as the number 42),
the raw string "42" decodes to the number 42 and the raw string
"not json\x7b\x7b" falls back to itself unchanged. -/
theorem return_value_parsed_or_raw_fallback_witness :
    propLookup (CreateResponseObject (fun s => if s = "42" then some 42 else none)
        { code := 0, errorMessage := "", returnValue := "42" }) "returnValue"
      = some (ResponseProp.json 42) ∧
    propLookup (CreateResponseObject (fun s => if s = "42" then some 42 else none)
        { code := 0, errorMessage := "", returnValue := "not json\x7b\x7b" }) "returnValue"
      = some (ResponseProp.str "not json\x7b\x7b") := by
  constructor
  · exact (return_value_parsed_or_raw_fallback Nat
      (fun s => if s = "42" then some 42 else none)
      { code := 0, errorMessage := "", returnValue := "42" } (by decide)).1 42 (by decide)
  · exact (return_value_parsed_or_raw_fallback Nat
      (fun s => if s = "42" then some 42 else none)
      { code := 0, errorMessage := "", returnValue := "not json\x7b\x7b" } (by decide)).2
      (by decide)

/-- C4: for every raw response whose `returnValue` is empty, the decoded
object's `returnValue` view is the empty string and the JSON parser is
invoked zero times, for every parser. -/
theorem empty_return_value_never_parsed
    (J : Type) (parse : String → Option J) (response : ExecuteResponse)
    (h : response.returnValue = "") :
    responseReturnValueCounting parse response = (ResponseProp.str "", 0) ∧
    propLookup (CreateResponseObject parse response) "returnValue"
      = some (ResponseProp.str "") := by
  constructor
  · simp [responseReturnValueCounting, h]
  · rw [lookup_returnValue]
    simp [responseReturnValue, h]

/-- C4, witness: a failed response with empty `returnValue` decodes to the
empty-string view with zero parser invocations. -/
theorem empty_return_value_never_parsed_witness :
    responseReturnValueCounting (fun s => if s = "42" then some 42 else none)
        { code := 7, errorMessage := "boom", returnValue := "" }
      = (ResponseProp.str "", 0) ∧
    propLookup (CreateResponseObject (fun s => if s = "42" then some 42 else none)
        { code := 7, errorMessage := "boom", returnValue := "" }) "returnValue"
      = some (ResponseProp.str "") := by
  exact empty_return_value_never_parsed Nat
    (fun s => if s = "42" then some 42 else none)
    { code := 7, errorMessage := "boom", returnValue := "" } (by decide)

end Napajs

